import Mathlib

/-!
Verification of the hybrid retrieval / routing engine of the self-graph-rag
repository.  Python dictionaries are embedded as insertion-ordered association
lists, Python exceptions as `Except`, and the stateful modules as explicit
state-passing functions.  Every definition follows the corresponding source
function; line references point into the repository's `src/` tree.
-/

/-! ## Association-list embedding of Python dictionaries -/

/-- Lookup in an insertion-ordered association list (Python `dict.get`). -/

def alookup {κ V : Type} [DecidableEq κ] (m : List (κ × V)) (k : κ) : Option V :=
  match m with
  | [] => none
  | (k', v) :: rest => if k' = k then some v else alookup rest k

/-- Python `d[k] = v`: replace the value at the first occurrence of `k`
(keeping its position, as CPython dicts do) or append a fresh binding. -/

def upsert {κ V : Type} [DecidableEq κ] (m : List (κ × V)) (k : κ) (v : V) :
    List (κ × V) :=
  match m with
  | [] => [(k, v)]
  | (k', v') :: rest =>
      if k' = k then (k', v) :: rest else (k', v') :: upsert rest k v

/-- Sequence of `d[k] = v` assignments. -/

def insertAll {κ V : Type} [DecidableEq κ] (m : List (κ × V))
    (ps : List (κ × V)) : List (κ × V) :=
  ps.foldl (fun acc p => upsert acc p.1 p.2) m

/-- Python `defaultdict(list)`: `d[k].append(v)`. -/

def appendKey {κ : Type} [DecidableEq κ] (m : List (κ × List String)) (k : κ)
    (v : String) : List (κ × List String) :=
  match alookup m k with
  | some vs => upsert m k (vs ++ [v])
  | none => m ++ [(k, [v])]

/-- Python dict subscript `d[k]`: raises `KeyError` when the key is absent. -/

def dictGet {V : Type} (m : List (String × V)) (k : String) : Except String V :=
  match alookup m k with
  | some v => Except.ok v
  | none => Except.error ("KeyError: " ++ k)

/-! ## Query router (src/modules/query_router.py) -/

/-- The `router_status` dictionary built by `IntelligentQueryRouter.__init__`
(query_router.py lines 23-28).  Note the last key is spelled `total_query`. -/

def routerStatusInit : List (String × Rat) :=
  [("traditional_count", 0), ("graph_retrieval_count", 0),
   ("combined_count", 0), ("total_query", 0)]

/-- Embedding of `IntelligentQueryRouter.get_route_statistics` (query_router.py lines
30-41): reads `router_status["total_queries"]`, returns the raw status dict
when the total is zero, and otherwise extends it with the three ratio keys. -/

def get_route_statistics (router_status : List (String × Rat)) :
    Except String (List (String × Rat)) := do
  let total ← dictGet router_status "total_queries"
  if total = 0 then
    return router_status
  else
    let tc ← dictGet router_status "traditional_count"
    let gc ← dictGet router_status "graph_rag_count"
    let cc ← dictGet router_status "combined_count"
    return router_status ++
      [("traditional_ratio", tc / total), ("graph_rag_ratio", gc / total),
       ("combined_ratio", cc / total)]

/-! ## Graph indexing module (src/modules/graph_index_module.py) -/

/-- Python `"\n".join(parts)`. -/

def joinLines : List String → String
  | [] => ""
  | [s] => s
  | s :: rest => s ++ "\n" ++ joinLines rest

/-- Python `x or fallback` on an optional string attribute: `None` and the
empty string are falsy. -/

def pyOrStr : Option String → String → String
  | some s, fb => if s = "" then fb else s
  | none, fb => fb

/-- Python `props.get(k)` used in a truthiness test: present and non-empty. -/

def getTruthy (props : List (String × String)) (k : String) : Option String :=
  match alookup props k with
  | some v => if v = "" then none else some v
  | none => none

/-- One optional content line: `if props.get(k): parts.append(label + props[k])`.
Property values are embedded as strings (their rendered form in the f-string). -/

def optPart (props : List (String × String)) (k label : String) : List String :=
  match getTruthy props k with
  | some v => [label ++ v]
  | none => []

/-- The `metadata` dict attached to every `EntityKeyValue`
(graph_index_module.py lines 89-92, 116-119, 145-148). -/

structure MetaData where
  node_id : String
  properties : List (String × String)
deriving DecidableEq, Repr

/-- Dataclass `EntityKeyValue` (graph_index_module.py lines 9-16). -/

structure EntityKeyValue where
  entity_name : String
  index_keys : List String
  value_content : String
  entity_type : String
  metadata : MetaData
deriving DecidableEq, Repr

/-- The `metadata` dict attached to every `RelationKeyValue`
(graph_index_module.py lines 195-199). -/

structure RelMetaData where
  source_name : String
  target_name : String
  created_from_graph : Bool
deriving DecidableEq, Repr

/-- Dataclass `RelationKeyValue` (graph_index_module.py lines 18-27). -/

structure RelationKeyValue where
  relation_id : String
  index_keys : List String
  value_content : String
  relation_type : String
  source_entity : String
  target_entity : String
  metadata : RelMetaData
deriving DecidableEq, Repr

/-- Dataclass `GraphNode` (graph_data_module.py lines 13-19) as consumed by the indexer:
`name` is optional (Python `None` / empty string are both falsy) and
`properties` is optional because `create_entity_key_values` probes for the
attribute with `hasattr`. -/

structure GraphNode where
  node_id : String
  name : Option String
  properties : Option (List (String × String))
deriving DecidableEq, Repr

/-- Mutable state of `GraphIndexingModule` (graph_index_module.py lines 42-52). -/

structure GraphIndexingModule where
  entity_kv_store : List (String × EntityKeyValue)
  relation_kv_store : List (String × RelationKeyValue)
  key_to_entities : List (String × List String)
  key_to_relations : List (String × List String)
deriving DecidableEq, Repr

/-- Fresh module state (`__init__`, graph_index_module.py lines 42-52). -/

def GraphIndexingModule.fresh : GraphIndexingModule :=
  { entity_kv_store := [], relation_kv_store := [],
    key_to_entities := [], key_to_relations := [] }

/-- Record built for one recipe node (graph_index_module.py lines 65-92). -/

def recipeRecord (recipe : GraphNode) : String × EntityKeyValue :=
  let entity_id := recipe.node_id
  let entity_name := pyOrStr recipe.name ("菜谱_" ++ entity_id)
  let content_parts := ["菜品名称：" ++ entity_name] ++
    (match recipe.properties with
     | none => []
     | some props =>
         optPart props "description" "描述: " ++
         optPart props "category" "分类: " ++
         optPart props "cuisineType" "菜系: " ++
         optPart props "difficulty" "难度: " ++
         optPart props "cookingTime" "制作时间: ")
  (entity_id,
   { entity_name := entity_name,
     index_keys := [entity_name],
     value_content := joinLines content_parts,
     entity_type := "Recipe",
     metadata := { node_id := entity_id,
                   properties := recipe.properties.getD [] } })

/-- One iteration of the recipe loop: store the record and append the id to
`key_to_entities[entity_name]` (graph_index_module.py lines 94-95). -/

def processRecipe (st : GraphIndexingModule) (recipe : GraphNode) :
    GraphIndexingModule :=
  let p := recipeRecord recipe
  { st with entity_kv_store := upsert st.entity_kv_store p.1 p.2,
            key_to_entities := appendKey st.key_to_entities p.2.entity_name p.1 }

/-- Record built for one ingredient node (graph_index_module.py lines
99-121).  The record construction and both store updates sit INSIDE the
`if hasattr(ingredient, "properties")` block, so an ingredient without a
`properties` attribute produces no record at all. -/

def ingredientRecord (ingredient : GraphNode) : Option (String × EntityKeyValue) :=
  match ingredient.properties with
  | none => none
  | some props =>
      let entity_id := ingredient.node_id
      let entity_name := pyOrStr ingredient.name ("食材_" ++ entity_id)
      let content_parts := ["食材名称：" ++ entity_name] ++
        optPart props "category" "类别: " ++
        optPart props "nutrition" "营养信息: " ++
        optPart props "storage" "储存方式: "
      some (entity_id,
        { entity_name := entity_name,
          index_keys := [entity_name],
          value_content := joinLines content_parts,
          entity_type := "Ingredient",
          metadata := { node_id := entity_id, properties := props } })

/-- One iteration of the ingredient loop (graph_index_module.py lines 99-121). -/

def processIngredient (st : GraphIndexingModule) (ingredient : GraphNode) :
    GraphIndexingModule :=
  match ingredientRecord ingredient with
  | none => st
  | some p =>
      { st with entity_kv_store := upsert st.entity_kv_store p.1 p.2,
                key_to_entities :=
                  appendKey st.key_to_entities p.2.entity_name p.1 }

/-- Record built for one cooking-step node (graph_index_module.py lines
124-149): the optional content lines are guarded by `hasattr`, but the record
is created and stored unconditionally. -/

def cookingStepRecord (cooking_step : GraphNode) : String × EntityKeyValue :=
  let entity_id := cooking_step.node_id
  let entity_name := pyOrStr cooking_step.name ("步骤_" ++ entity_id)
  let content_parts := ["步骤名称：" ++ entity_name] ++
    (match cooking_step.properties with
     | none => []
     | some props =>
         optPart props "description" "步骤描述: " ++
         optPart props "order" "步骤顺序: " ++
         optPart props "technique" "技巧: " ++
         optPart props "time" "时间: ")
  (entity_id,
   { entity_name := entity_name,
     index_keys := [entity_name],
     value_content := joinLines content_parts,
     entity_type := "CookingStep",
     metadata := { node_id := entity_id,
                   properties := cooking_step.properties.getD [] } })

/-- One iteration of the cooking-step loop (graph_index_module.py lines
150-151). -/

def processCookingStep (st : GraphIndexingModule) (cooking_step : GraphNode) :
    GraphIndexingModule :=
  let p := cookingStepRecord cooking_step
  { st with entity_kv_store := upsert st.entity_kv_store p.1 p.2,
            key_to_entities := appendKey st.key_to_entities p.2.entity_name p.1 }

/-- Embedding of `create_entity_key_values` (graph_index_module.py lines 55-154): the three
loops run in sequence over the shared stores. -/

def create_entity_key_values (st : GraphIndexingModule)
    (recipes ingredients cooking_steps : List GraphNode) :
    GraphIndexingModule :=
  let st1 := recipes.foldl processRecipe st
  let st2 := ingredients.foldl processIngredient st1
  cooking_steps.foldl processCookingStep st2

/-- The `keys` list built by `_generate_relation_index_keys` before its guard
line (graph_index_module.py lines 215-240). -/

def relationIndexKeysBase (source_entity target_entity : EntityKeyValue)
    (relation_type : String) : List String :=
  [relation_type] ++
  (if relation_type = "REQUIRES" then
     ["食材搭配", "烹饪原料", source_entity.entity_name ++ "_食材",
      target_entity.entity_name]
   else if relation_type = "HAS_STEP" then
     ["制作步骤", "烹饪过程", source_entity.entity_name ++ "_步骤", "制作方法"]
   else if relation_type = "BELONGS_TO_CATEGORY" then
     ["菜品分类", "美食类别", target_entity.entity_name]
   else [])

/-- Embedding of `_generate_relation_index_keys` (graph_index_module.py lines 211-248).
After building `keys`, line 243 evaluates `hasattr(self.config,
"enable_llm_relation_keys", False)`: Python's `hasattr` takes exactly two
arguments, so this call raises a `TypeError` before the function can return. -/

def generate_relation_index_keys (source_entity target_entity : EntityKeyValue)
    (relation_type : String) : Except String (List String) :=
  let _keys := relationIndexKeysBase source_entity target_entity relation_type
  Except.error "TypeError: hasattr expected 2 arguments, got 3"

/-- One iteration of the relation loop (graph_index_module.py lines 164-206).
The tuple is unpacked as `(source_id, target_id, relation_type)`; when either
endpoint is missing from `entity_kv_store` the iteration logs a warning and
`continue`s (lines 171-173).  An uncaught exception is returned as `some msg`
alongside the state mutated so far. -/

def processRelation (st : GraphIndexingModule)
    (p : Nat × String × String × String) : GraphIndexingModule × Option String :=
  let i := p.1
  let source_id := p.2.1
  let target_id := p.2.2.1
  let relation_type := p.2.2.2
  let relation_id := "rel_" ++ toString i ++ "_" ++ source_id ++ "_" ++ target_id
  match alookup st.entity_kv_store source_id,
        alookup st.entity_kv_store target_id with
  | some source_entity, some target_entity =>
      (match generate_relation_index_keys source_entity target_entity
               relation_type with
       | Except.error e => (st, some e)
       | Except.ok index_keys =>
           let content_parts :=
             ["关系类型：" ++ relation_type,
              "源节点：" ++ source_entity.entity_name,
              "目标节点：" ++ target_entity.entity_name]
           let relation_kv : RelationKeyValue :=
             { relation_id := relation_id,
               index_keys := index_keys,
               value_content := joinLines content_parts,
               relation_type := relation_type,
               source_entity := source_id,
               target_entity := target_id,
               metadata := { source_name := source_entity.entity_name,
                             target_name := target_entity.entity_name,
                             created_from_graph := true } }
           ({ st with
              relation_kv_store :=
                upsert st.relation_kv_store relation_id relation_kv,
              key_to_relations :=
                index_keys.foldl (fun m k => appendKey m k relation_id)
                  st.key_to_relations }, none))
  | _, _ => (st, none)

/-- The `for i, (...) in enumerate(relationships)` loop: a raised exception
exits the loop, a skip continues with the next tuple. -/

def relationLoop (st : GraphIndexingModule) :
    List (Nat × String × String × String) → GraphIndexingModule × Option String
  | [] => (st, none)
  | p :: rest =>
      match processRelation st p with
      | (st', none) => relationLoop st' rest
      | (st', some e) => (st', some e)

/-- Embedding of `create_relation_key_value` (graph_index_module.py lines 157-209). -/

def create_relation_key_value (st : GraphIndexingModule)
    (relationships : List (String × String × String)) :
    GraphIndexingModule × Option String :=
  relationLoop st relationships.enum

/-- A row of the Neo4j relation query in `_extract_relationships_from_graph`
(hybird_retrieval_module.py lines 85-90). -/

structure RelationRow where
  source_id : String
  relation_type : String
  target_id : String
deriving DecidableEq, Repr

/-- Embedding of `_extract_relationships_from_graph` (hybird_retrieval_module.py lines
79-103): each row is appended as the tuple
`(source_id, relation_type, target_id)` — relation type in the MIDDLE. -/

def extract_relationships_from_graph (rows : List RelationRow) :
    List (String × String × String) :=
  rows.map (fun r => (r.source_id, r.relation_type, r.target_id))

/-- Value of the LAST binding of `k` in `ps` (the one a sequence of dict
assignments leaves in place). -/

def finalVal {κ V : Type} [DecidableEq κ] : List (κ × V) → κ → Option V
  | [], _ => none
  | (k', v) :: rest, k =>
      match finalVal rest k with
      | some w => some w
      | none => if k' = k then some v else none

/-! ## Bridge lemmas for the indexing module -/

/-- The store pairs contributed by one full `create_entity_key_values` run. -/

def entityPairs (recipes ingredients cooking_steps : List GraphNode) :
    List (String × EntityKeyValue) :=
  recipes.map recipeRecord ++ ingredients.filterMap ingredientRecord ++
    cooking_steps.map cookingStepRecord

/-! ## Deduplication (spec-modelled; called from hybird_retrieval_module.py) -/

/-- One step of collapsing a record list into an association list keyed by a
grouping key: an existing group is replaced in place by the merged record, a
new group is appended. -/

def collapseStep {κ α : Type} [DecidableEq κ] (key : α → κ)
    (merge : α → α → α) (acc : List (κ × α)) (a : α) : List (κ × α) :=
  match alookup acc (key a) with
  | some old => upsert acc (key a) (merge old a)
  | none => acc ++ [(key a, a)]

/-- Collapse a record list so that at most one record per grouping key
remains, merging later records into the group. -/

def collapseBy {κ α : Type} [DecidableEq κ] (key : α → κ)
    (merge : α → α → α) (xs : List α) : List α :=
  (xs.foldl (collapseStep key merge) []).map Prod.snd

/-- Grouping key for entity records: `(entity_type, display_name)` (spec §4.1). -/

def entGroupKey (p : String × EntityKeyValue) : String × String :=
  (p.2.entity_type, p.2.entity_name)

/-- Python-style shallow dict merge `\x7b**old, **newer\x7d`: newer overrides on
key collision. -/

def mergeProperties (old newer : List (String × String)) :
    List (String × String) :=
  old.map (fun q => (q.1, (alookup newer q.1).getD q.2)) ++
    newer.filter (fun q => (alookup old q.1).isNone)

/-- Merge two entity records sharing a group key: keep the most recently
created record, merging metadata with newer-overrides (spec §4.1). -/

def mergeEntityRecord (old newer : String × EntityKeyValue) :
    String × EntityKeyValue :=
  (newer.1,
   { newer.2 with
     metadata := { node_id := newer.2.metadata.node_id,
                   properties := mergeProperties old.2.metadata.properties
                     newer.2.metadata.properties } })

/-- Grouping key for relation records:
`(source_entity_id, target_entity_id, relation_type)` (spec §4.1). -/

def relGroupKey (p : String × RelationKeyValue) : String × String × String :=
  (p.2.source_entity, p.2.target_entity, p.2.relation_type)

/-- Merge two relation records sharing a group key: all metadata fields of a
RelationKeyValue are always present, so the newer-overrides shallow merge
keeps the newer record wholesale. -/

def mergeRelationRecord (_old newer : String × RelationKeyValue) :
    String × RelationKeyValue :=
  newer

/-- Rebuild of the key-to-entity-ids mapping from a record store. -/

def rebuildKeyToEntities (es : List (String × EntityKeyValue)) :
    List (String × List String) :=
  es.foldl (fun m p => p.2.index_keys.foldl (fun m2 k => appendKey m2 k p.1) m) []

/-- Rebuild of the key-to-relation-ids mapping from a record store. -/

def rebuildKeyToRelations (rs : List (String × RelationKeyValue)) :
    List (String × List String) :=
  rs.foldl (fun m p => p.2.index_keys.foldl (fun m2 k => appendKey m2 k p.1) m) []

/-- Modelled from the spec: `deduplicate_entities_and_relations` is invoked by
`_build_graph_index` (hybird_retrieval_module.py line 72) but is not defined
anywhere under the repository's sources.  Spec §4.1 `deduplicate()`: collapse
EntityRecords sharing an identical `(entity_type, display_name)` pair into
one record, preferring the most recently created one and merging metadata
(newer overrides on key collision); similarly collapse RelationRecords with
identical `(source_entity_id, target_entity_id, relation_type)`; rebuild the
KeyIndex afterward. -/

def deduplicate_entities_and_relations (st : GraphIndexingModule) :
    GraphIndexingModule :=
  { entity_kv_store := collapseBy entGroupKey mergeEntityRecord st.entity_kv_store,
    relation_kv_store :=
      collapseBy relGroupKey mergeRelationRecord st.relation_kv_store,
    key_to_entities :=
      rebuildKeyToEntities (collapseBy entGroupKey mergeEntityRecord
        st.entity_kv_store),
    key_to_relations :=
      rebuildKeyToRelations (collapseBy relGroupKey mergeRelationRecord
        st.relation_kv_store) }

/-! ## Streaming generation (src/modules/graph_llm_module.py) -/

/-- The user-visible error string built at graph_llm_module.py line 161; `e`
is the exception of the LAST streaming attempt. -/

def streamErrorMessage (e : String) : String :=
  "抱歉，生成回答时出现网络错误，请稍后重试。错误信息：" ++ e

/-- Everything a caller of the streaming generator observes: the yielded text
fragments, the sleep durations between retries (line 146-148), and whether
the non-streaming fallback was invoked (line 156). -/

structure StreamRun where
  yielded : List String
  waits : List Nat
  usedFallback : Bool
deriving DecidableEq, Repr

/-- The retry loop `for attempt in range(max_retries)` of
`generate_adaptive_answer_stream` (graph_llm_module.py lines 114-163), over
the list of remaining attempt indices.  `att n` is the behaviour of the n-th
streaming attempt (0-based): the non-empty content fragments it yields before
either completing (`none`) or raising (`some errortext`).  `fallback` is the
outcome of the non-streaming `generate_adaptive_answer` call.  On an attempt
failure with retries left the loop sleeps `(attempt + 1) * 2` seconds (line
146) and continues; on the last attempt it falls back, and a fallback failure
yields the single apologetic error string. -/

def streamLoop (att : Nat → List String × Option String)
    (fallback : Except String String) (max_retries : Nat) :
    List Nat → StreamRun
  | [] => { yielded := [], waits := [], usedFallback := false }
  | attempt :: rest =>
      match (att attempt).2 with
      | none => { yielded := (att attempt).1, waits := [], usedFallback := false }
      | some e =>
          if attempt < max_retries - 1 then
            let r := streamLoop att fallback max_retries rest
            { yielded := (att attempt).1 ++ r.yielded,
              waits := (attempt + 1) * 2 :: r.waits,
              usedFallback := r.usedFallback }
          else
            match fallback with
            | Except.ok s =>
                { yielded := (att attempt).1 ++ [s], waits := [],
                  usedFallback := true }
            | Except.error _ =>
                { yielded := (att attempt).1 ++ [streamErrorMessage e],
                  waits := [], usedFallback := true }

/-- Embedding of `generate_adaptive_answer_stream` (graph_llm_module.py lines
79-163), abstracting the LLM client into the attempt behaviour `att` and the
non-streaming fallback outcome. -/

def generate_adaptive_answer_stream (att : Nat → List String × Option String)
    (fallback : Except String String) (max_retries : Nat) : StreamRun :=
  streamLoop att fallback max_retries (List.range max_retries)

/-! ## Initialization of required collaborators -/

/-- Python truthiness of an optional string (`None` and `""` are falsy). -/

def pyTruthyOptStr : Option String → Bool
  | some s => if s = "" then false else true
  | none => false

/-- Dataclass `LLMConfig` (config.py lines 37-44); the numeric generation
knobs (max_tokens, temperature, top_k) play no role in the claims and are
omitted.  `api_key` and `api_base` come from `os.getenv` and may be `None`. -/

structure LLMConfig where
  model_name : String
  api_key : Option String
  api_base : Option String
deriving DecidableEq, Repr

/-- State of `LLMModule` after a successful `__init__`. -/

structure LLMModule where
  config : LLMConfig
deriving DecidableEq, Repr

/-- Embedding of `LLMModule.__init__` (graph_llm_module.py lines 13-24): a
falsy API key raises `ValueError` and the error propagates to the caller. -/

def llm_module_init (config : LLMConfig) : Except String LLMModule :=
  if pyTruthyOptStr config.api_key then Except.ok { config := config }
  else Except.error "ValueError: LLM API KEY不能为空"

/-- Embedding of `GraphDataModule._connect` (graph_data_module.py lines
46-66): the driver construction and test query are external; `attempt` is
their combined outcome.  On failure the except block logs and re-`raise`s, so
the error propagates unchanged. -/

def graph_data_module_connect (attempt : Except String String) :
    Except String String :=
  match attempt with
  | Except.ok driver => Except.ok driver
  | Except.error e => Except.error e

/-- State of `GraphRAGRetrievalModule` (graph_rag_retrieval_module.py lines
17-26): the Neo4j driver plus the entity and relation-type caches, abstracted
to the data the claims inspect. -/

structure GraphRAGRetrievalModule where
  driver : Option String
  entity_cache : List (String × String)
  relation_cache : List (String × Nat)
deriving DecidableEq, Repr

/-- Fresh `GraphRAGRetrievalModule` state. -/

def GraphRAGRetrievalModule.fresh : GraphRAGRetrievalModule :=
  { driver := none, entity_cache := [], relation_cache := [] }

/-- Embedding of `GraphRAGRetrievalModule._build_graph_index` (lines 49-90):
cache pre-warm queries run inside try/except; a failure is logged and leaves
the caches unchanged. -/

def ragBuildGraphIndex (st : GraphRAGRetrievalModule)
    (queryResult :
      Except String (List (String × String) × List (String × Nat))) :
    GraphRAGRetrievalModule :=
  match queryResult with
  | Except.ok r => { st with entity_cache := r.1, relation_cache := r.2 }
  | Except.error _ => st

/-- Embedding of `GraphRAGRetrievalModule.initialize` (lines 28-47): a failed
Neo4j connection is caught, logged, and the method `return`s early — it never
raises, which is why the result is always `Except.ok`. -/

def ragModuleInit (st : GraphRAGRetrievalModule)
    (connectAttempt : Except String String)
    (queryResult :
      Except String (List (String × String) × List (String × Nat))) :
    Except String GraphRAGRetrievalModule :=
  match connectAttempt with
  | Except.error _ => Except.ok st
  | Except.ok d => Except.ok (ragBuildGraphIndex { st with driver := some d }
      queryResult)

/-! ## Document chunking (src/modules/graph_data_module.py) -/

/-- A document as consumed by `chunk_documents`: its text plus the
`node_id` metadata entry used to form chunk ids. -/

structure PyDocument where
  page_content : String
  node_id : String
deriving DecidableEq, Repr

/-- A chunk produced by `chunk_documents` (metadata fields that the function
itself sets). -/

structure DocChunk where
  page_content : String
  chunk_id : String
  parent_id : String
  chunk_index : Nat
  total_chunks : Nat
  chunk_size : Nat
  section_title : Option String
deriving DecidableEq, Repr

/-- Python slice `content[a:b]` on characters. -/

def sliceChars (s : String) (a b : Nat) : String :=
  String.mk ((s.data.drop a).take (b - a))

/-- Chunks produced from a single document (graph_data_module.py lines
310-382), given the running chunk counter. -/

def chunkOneDoc (chunk_size chunk_overlap : Nat) (doc : PyDocument)
    (chunk_id0 : Nat) : List DocChunk :=
  let content := doc.page_content
  if content.length ≤ chunk_size then
    [{ page_content := content,
       chunk_id := doc.node_id ++ "_chunk_" ++ toString chunk_id0,
       parent_id := doc.node_id, chunk_index := 0, total_chunks := 1,
       chunk_size := content.length, section_title := none }]
  else
    let sections := content.splitOn "\n##"
    if sections.length ≤ 1 then
      let total_chunks := (content.length - 1) / (chunk_size - chunk_overlap) + 1
      (List.range total_chunks).map (fun i =>
        let start := i * (chunk_size - chunk_overlap)
        let stop := min (start + chunk_size) content.length
        let chunk_content := sliceChars content start stop
        { page_content := chunk_content,
          chunk_id := doc.node_id ++ "_chunk_" ++ toString (chunk_id0 + i),
          parent_id := doc.node_id, chunk_index := i,
          total_chunks := total_chunks,
          chunk_size := chunk_content.length, section_title := none })
    else
      sections.enum.map (fun q =>
        let chunk_content := if q.1 = 0 then q.2 else "## " ++ q.2
        { page_content := chunk_content,
          chunk_id := doc.node_id ++ "_chunk_" ++ toString (chunk_id0 + q.1),
          parent_id := doc.node_id, chunk_index := q.1,
          total_chunks := sections.length,
          chunk_size := chunk_content.length,
          section_title := if q.1 = 0 then some "主标题"
            else some ((q.2.splitOn "\n").headD "") })

/-- The `for doc in self.documents` loop with its running `chunk_id`. -/

def chunkLoop (chunk_size chunk_overlap : Nat) :
    List PyDocument → Nat → List DocChunk
  | [], _ => []
  | doc :: rest, chunk_id0 =>
      let cs := chunkOneDoc chunk_size chunk_overlap doc chunk_id0
      cs ++ chunkLoop chunk_size chunk_overlap rest (chunk_id0 + cs.length)

/-- Truthiness of the guard expression at graph_data_module.py line 305: the
name `documents` there is the module attribute imported at line 7
(`from nltk.corpus.reader import documents`), a bound object that is never
`None`, hence always truthy — NOT the instance list `self.documents`. -/

def documentsImportTruthy : Bool := true

/-- Embedding of `chunk_documents` (graph_data_module.py lines 299-385): the
guard `if not documents` tests the imported name, so the `ValueError` branch
is unreachable and the loop runs over `self.documents`. -/

def chunk_documents (self_documents : List PyDocument)
    (chunk_size chunk_overlap : Nat) : Except String (List DocChunk) :=
  if documentsImportTruthy then
    Except.ok (chunkLoop chunk_size chunk_overlap self_documents 0)
  else
    Except.error "ValueError: 请先构建文档"

/-! ## Concrete inputs used by the witnesses -/

/-- A recipe node without a `properties` attribute. -/

def nodeR : GraphNode :=
  { node_id := "200000001", name := some "宫保鸡丁", properties := none }

/-- An ingredient node without a `properties` attribute. -/

def nodeI : GraphNode :=
  { node_id := "200000002", name := some "花生米", properties := none }

/-- A pre-existing relation record with resolvable endpoints. -/

def rkvPrior : RelationKeyValue :=
  { relation_id := "rel_prior", index_keys := ["REQUIRES"],
    value_content := "", relation_type := "REQUIRES",
    source_entity := "A", target_entity := "B",
    metadata := { source_name := "甲", target_name := "乙",
                  created_from_graph := true } }

/-- A recipe node named 甲. -/

def nodeA : GraphNode :=
  { node_id := "A", name := some "甲", properties := none }

/-- A recipe node named 乙. -/

def nodeB : GraphNode :=
  { node_id := "B", name := some "乙", properties := none }

/-- An indexing-module state with two indexed entities and one stored
relation. -/

def stWithEntities : GraphIndexingModule :=
  { entity_kv_store := [("A", (recipeRecord nodeA).2), ("B", (recipeRecord nodeB).2)],
    relation_kv_store := [("rel_prior", rkvPrior)],
    key_to_entities := [], key_to_relations := [] }

/-- A relation row as produced by the Neo4j query of
`_extract_relationships_from_graph`. -/

def rowAB : RelationRow :=
  { source_id := "A", relation_type := "REQUIRES", target_id := "B" }

/-- Attempt behaviour for the stream witness: attempts 1 and 2 fail outright,
attempt 3 streams one fragment and completes. -/

def cAtt : Nat → List String × Option String :=
  fun n => if n = 0 then ([], some "e1")
    else if n = 1 then ([], some "e2")
    else (["attempt3"], none)

/-- C1: the claim fails on the code.  On a freshly initialized router (all
counters zero) `get_route_statistics` does not return zero ratios: it raises a
`KeyError`, because `__init__` stores the counter under the key `total_query`
while `get_route_statistics` reads `total_queries`. -/

theorem get_route_statistics_fresh_router_raises_keyerror :
    get_route_statistics routerStatusInit =
      Except.error "KeyError: total_queries" := rfl

/-! ## Lemmas about the association-list embedding -/

theorem mem_upsert {κ V : Type} [DecidableEq κ] {m : List (κ × V)} {k : κ}
    {v : V} {p : κ × V} (h : p ∈ upsert m k v) : p ∈ m ∨ p = (k, v) := by
  induction m with
  | nil =>
      simp [upsert] at h
      right
      simp [h]
  | cons a rest ih =>
      obtain ⟨k', v'⟩ := a
      by_cases hk : k' = k
      · simp [upsert, hk] at h
        rcases h with h | h
        · right
          simp [h, hk]
        · left
          simp [h]
      · simp [upsert, hk] at h
        rcases h with h | h
        · left
          simp [h]
        · rcases ih h with h' | h'
          · left
            simp [h']
          · right
            exact h'

theorem alookup_upsert_self {κ V : Type} [DecidableEq κ] (m : List (κ × V))
    (k : κ) (v : V) : alookup (upsert m k v) k = some v := by
  induction m with
  | nil => simp [upsert, alookup]
  | cons a rest ih =>
      obtain ⟨k', v'⟩ := a
      by_cases hk : k' = k
      · simp [upsert, hk, alookup]
      · simp [upsert, hk, alookup, ih]

theorem alookup_upsert_ne {κ V : Type} [DecidableEq κ] (m : List (κ × V))
    (k k' : κ) (v : V) (h : k' ≠ k) :
    alookup (upsert m k v) k' = alookup m k' := by
  induction m with
  | nil => simp [upsert, alookup, Ne.symm h]
  | cons a rest ih =>
      obtain ⟨ka, va⟩ := a
      by_cases hk : ka = k
      · subst hk
        simp [upsert, alookup, Ne.symm h]
      · simp only [upsert, if_neg hk, alookup]
        by_cases hk2 : ka = k'
        · simp [hk2]
        · simp [hk2, ih]

theorem alookup_eq_none_iff {κ V : Type} [DecidableEq κ] (m : List (κ × V))
    (k : κ) : alookup m k = none ↔ k ∉ m.map Prod.fst := by
  induction m with
  | nil => simp [alookup]
  | cons a rest ih =>
      obtain ⟨k', v'⟩ := a
      rw [List.map_cons]
      by_cases hk : k' = k
      · subst hk
        simp [alookup]
      · rw [List.mem_cons]
        constructor
        · intro hnone hor
          rcases hor with hor | hor
          · exact hk hor.symm
          · exact (ih.mp (by simpa [alookup, hk] using hnone)) hor
        · intro hnot
          have hrest : k ∉ rest.map Prod.fst := fun hh => hnot (Or.inr hh)
          simp [alookup, hk, ih.mpr hrest]

theorem keys_upsert_mem {κ V : Type} [DecidableEq κ] {m : List (κ × V)}
    {k : κ} (v : V) (h : k ∈ m.map Prod.fst) :
    (upsert m k v).map Prod.fst = m.map Prod.fst := by
  induction m with
  | nil => simp at h
  | cons a rest ih =>
      obtain ⟨k', v'⟩ := a
      by_cases hk : k' = k
      · simp [upsert, hk]
      · have hrest : k ∈ rest.map Prod.fst := by
          rw [List.map_cons, List.mem_cons] at h
          rcases h with h | h
          · exact absurd h.symm hk
          · exact h
        simp [upsert, hk, ih hrest]

theorem keys_upsert_not_mem {κ V : Type} [DecidableEq κ] {m : List (κ × V)}
    {k : κ} (v : V) (h : k ∉ m.map Prod.fst) :
    (upsert m k v).map Prod.fst = m.map Prod.fst ++ [k] := by
  induction m with
  | nil => simp [upsert]
  | cons a rest ih =>
      obtain ⟨k', v'⟩ := a
      have hk : k' ≠ k := by
        intro hh
        exact h (by simp [hh])
      have hrest : k ∉ rest.map Prod.fst := by
        intro hh
        exact h (by simp [hh])
      simp [upsert, hk, ih hrest]

theorem mem_keys_upsert_of_mem {κ V : Type} [DecidableEq κ] {m : List (κ × V)}
    {k k' : κ} (v : V) (h : k' ∈ m.map Prod.fst) :
    k' ∈ (upsert m k v).map Prod.fst := by
  by_cases hk : k ∈ m.map Prod.fst
  · rw [keys_upsert_mem v hk]
    exact h
  · rw [keys_upsert_not_mem v hk]
    simp [h]

theorem mem_keys_upsert_self {κ V : Type} [DecidableEq κ] (m : List (κ × V))
    (k : κ) (v : V) : k ∈ (upsert m k v).map Prod.fst := by
  by_cases hk : k ∈ m.map Prod.fst
  · rw [keys_upsert_mem v hk]
    exact hk
  · rw [keys_upsert_not_mem v hk]
    simp

theorem nodup_keys_upsert {κ V : Type} [DecidableEq κ] {m : List (κ × V)}
    (k : κ) (v : V) (h : (m.map Prod.fst).Nodup) :
    ((upsert m k v).map Prod.fst).Nodup := by
  by_cases hk : k ∈ m.map Prod.fst
  · rw [keys_upsert_mem v hk]
    exact h
  · rw [keys_upsert_not_mem v hk]
    simp [List.nodup_append, h, hk]

theorem alookup_of_mem_nodup {κ V : Type} [DecidableEq κ] {m : List (κ × V)}
    {p : κ × V} (hp : p ∈ m) (hnd : (m.map Prod.fst).Nodup) :
    alookup m p.1 = some p.2 := by
  induction m with
  | nil => simp at hp
  | cons a rest ih =>
      obtain ⟨k', v'⟩ := a
      rw [List.map_cons] at hnd
      have hnd2 := List.nodup_cons.mp hnd
      rcases List.mem_cons.mp hp with h | h
      · rw [h]
        simp [alookup]
      · have hk : k' ≠ p.1 := by
          intro hh
          apply hnd2.1
          rw [hh]
          exact List.mem_map.mpr ⟨p, h, rfl⟩
        simp [alookup, hk, ih h hnd2.2]

theorem insertAll_nil {κ V : Type} [DecidableEq κ] (m : List (κ × V)) :
    insertAll m [] = m := rfl

theorem insertAll_cons {κ V : Type} [DecidableEq κ] (m : List (κ × V))
    (p : κ × V) (ps : List (κ × V)) :
    insertAll m (p :: ps) = insertAll (upsert m p.1 p.2) ps := rfl

theorem insertAll_append {κ V : Type} [DecidableEq κ] (m : List (κ × V))
    (ps qs : List (κ × V)) :
    insertAll m (ps ++ qs) = insertAll (insertAll m ps) qs := by
  simp [insertAll, List.foldl_append]

theorem nodup_keys_insertAll {κ V : Type} [DecidableEq κ]
    {m : List (κ × V)} (ps : List (κ × V))
    (h : (m.map Prod.fst).Nodup) :
    ((insertAll m ps).map Prod.fst).Nodup := by
  induction ps generalizing m with
  | nil => exact h
  | cons p ps ih =>
      rw [insertAll_cons]
      exact ih (nodup_keys_upsert p.1 p.2 h)

theorem mem_keys_insertAll_of_mem {κ V : Type} [DecidableEq κ]
    {m : List (κ × V)} (ps : List (κ × V)) {k : κ}
    (h : k ∈ m.map Prod.fst) : k ∈ (insertAll m ps).map Prod.fst := by
  induction ps generalizing m with
  | nil => exact h
  | cons p ps ih =>
      rw [insertAll_cons]
      exact ih (mem_keys_upsert_of_mem p.2 h)

theorem mem_keys_insertAll_of_mem_ps {κ V : Type} [DecidableEq κ]
    {m : List (κ × V)} {ps : List (κ × V)} {k : κ}
    (h : k ∈ ps.map Prod.fst) : k ∈ (insertAll m ps).map Prod.fst := by
  induction ps generalizing m with
  | nil => simp at h
  | cons p ps ih =>
      rw [insertAll_cons]
      rw [List.map_cons, List.mem_cons] at h
      rcases h with h | h
      · subst h
        exact mem_keys_insertAll_of_mem ps (mem_keys_upsert_self m p.1 p.2)
      · exact ih h

theorem alookup_insertAll {κ V : Type} [DecidableEq κ] (ps : List (κ × V))
    (m : List (κ × V)) (k : κ) :
    alookup (insertAll m ps) k =
      (match finalVal ps k with
       | some w => some w
       | none => alookup m k) := by
  induction ps generalizing m with
  | nil => rfl
  | cons p ps ih =>
      obtain ⟨k', v⟩ := p
      rw [insertAll_cons, ih]
      cases hf : finalVal ps k with
      | some w => simp [finalVal, hf]
      | none =>
          by_cases hk : k' = k
          · subst hk
            simp [finalVal, hf, alookup_upsert_self]
          · simp [finalVal, hf, hk, alookup_upsert_ne m k' k v (Ne.symm hk)]

theorem map_congr_mem {α β : Type} {l : List α} {f g : α → β}
    (h : ∀ a ∈ l, f a = g a) : l.map f = l.map g := by
  induction l with
  | nil => rfl
  | cons a l ih =>
      rw [List.map_cons, List.map_cons, h a (by simp),
        ih (fun b hb => h b (by simp [hb]))]

theorem map_self_of_mem {α : Type} {l : List α} {f : α → α}
    (h : ∀ a ∈ l, f a = a) : l.map f = l := by
  induction l with
  | nil => rfl
  | cons a l ih =>
      rw [List.map_cons, h a (by simp), ih (fun b hb => h b (by simp [hb]))]

theorem map_keep_fst_of_not_mem {κ V : Type} [DecidableEq κ]
    {m : List (κ × V)} {k : κ} {v : V} (h : k ∉ m.map Prod.fst) :
    m.map (fun p => (p.1, if p.1 = k then v else p.2)) = m := by
  apply map_self_of_mem
  intro p hp
  have hne : p.1 ≠ k := by
    intro hh
    exact h (List.mem_map.mpr ⟨p, hp, hh⟩)
  simp [hne]

theorem upsert_eq_map {κ V : Type} [DecidableEq κ] (m : List (κ × V))
    (k : κ) (v : V) (hmem : k ∈ m.map Prod.fst)
    (hnd : (m.map Prod.fst).Nodup) :
    upsert m k v = m.map (fun p => (p.1, if p.1 = k then v else p.2)) := by
  induction m with
  | nil => simp at hmem
  | cons a rest ih =>
      obtain ⟨k', v'⟩ := a
      rw [List.map_cons] at hnd
      have hnd2 := List.nodup_cons.mp hnd
      by_cases hk : k' = k
      · subst hk
        have hrest : k' ∉ rest.map Prod.fst := hnd2.1
        simp [upsert, map_keep_fst_of_not_mem hrest]
      · have hrest : k ∈ rest.map Prod.fst := by
          rw [List.map_cons, List.mem_cons] at hmem
          rcases hmem with h | h
          · exact absurd h.symm hk
          · exact h
        simp [upsert, hk, ih hrest hnd2.2]

theorem finalVal_cons_eq {κ V : Type} [DecidableEq κ] (k : κ) (v : V)
    (ps : List (κ × V)) (x : κ) (y : V) :
    (finalVal ps x).getD (if x = k then v else y) =
      (finalVal ((k, v) :: ps) x).getD y := by
  cases hf : finalVal ps x with
  | some w => simp [finalVal, hf]
  | none =>
      by_cases hx : x = k
      · subst hx
        simp [finalVal, hf]
      · simp [finalVal, hf, hx, Ne.symm hx]

theorem insertAll_eq_map {κ V : Type} [DecidableEq κ] (ps : List (κ × V)) :
    ∀ m : List (κ × V), (m.map Prod.fst).Nodup →
      (∀ k ∈ ps.map Prod.fst, k ∈ m.map Prod.fst) →
      insertAll m ps = m.map (fun p => (p.1, (finalVal ps p.1).getD p.2)) := by
  induction ps with
  | nil =>
      intro m _ _
      simp [insertAll, finalVal]
  | cons p ps ih =>
      intro m hnd hsub
      obtain ⟨k, v⟩ := p
      rw [insertAll_cons]
      have hkm : k ∈ m.map Prod.fst := hsub k (by simp)
      rw [upsert_eq_map m k v hkm hnd]
      have hkeys : (m.map (fun p => (p.1, if p.1 = k then v else p.2))).map
          Prod.fst = m.map Prod.fst := by
        rw [List.map_map]
        rfl
      have hnd' := hkeys ▸ hnd
      have hsub' : ∀ k' ∈ ps.map Prod.fst,
          k' ∈ (m.map (fun p => (p.1, if p.1 = k then v else p.2))).map
            Prod.fst := by
        intro k' hk'
        rw [hkeys]
        exact hsub k' (by simp [hk'])
      rw [ih _ hnd' hsub', List.map_map]
      apply map_congr_mem
      intro a _
      show (a.1, (finalVal ps a.1).getD (if a.1 = k then v else a.2)) =
        (a.1, (finalVal ((k, v) :: ps) a.1).getD a.2)
      rw [finalVal_cons_eq]

theorem insertAll_idem {κ V : Type} [DecidableEq κ] (m ps : List (κ × V))
    (hnd : (m.map Prod.fst).Nodup) :
    insertAll (insertAll m ps) ps = insertAll m ps := by
  have hnd' := nodup_keys_insertAll ps hnd
  have hsub : ∀ k ∈ ps.map Prod.fst, k ∈ (insertAll m ps).map Prod.fst :=
    fun k hk => mem_keys_insertAll_of_mem_ps hk
  rw [insertAll_eq_map ps (insertAll m ps) hnd' hsub]
  apply map_self_of_mem
  intro p hp
  cases hf : finalVal ps p.1 with
  | none => simp [hf]
  | some w =>
      have hl : alookup (insertAll m ps) p.1 = some w := by
        rw [alookup_insertAll, hf]
      have hl2 : alookup (insertAll m ps) p.1 = some p.2 :=
        alookup_of_mem_nodup hp hnd'
      have hw : w = p.2 := by
        rw [hl] at hl2
        exact Option.some.inj hl2
      simp [hf, hw]

theorem foldl_processRecipe_store (recipes : List GraphNode) :
    ∀ st : GraphIndexingModule,
      (recipes.foldl processRecipe st).entity_kv_store =
        insertAll st.entity_kv_store (recipes.map recipeRecord) := by
  induction recipes with
  | nil => intro st; rfl
  | cons r rs ih =>
      intro st
      rw [List.foldl_cons, ih, List.map_cons, insertAll_cons]
      rfl

theorem foldl_processIngredient_store (ingredients : List GraphNode) :
    ∀ st : GraphIndexingModule,
      (ingredients.foldl processIngredient st).entity_kv_store =
        insertAll st.entity_kv_store (ingredients.filterMap ingredientRecord) := by
  induction ingredients with
  | nil => intro st; rfl
  | cons r rs ih =>
      intro st
      rw [List.foldl_cons, ih]
      cases hr : ingredientRecord r with
      | none =>
          rw [List.filterMap_cons_none hr]
          congr 1
          simp [processIngredient, hr]
      | some p =>
          rw [List.filterMap_cons_some hr, insertAll_cons]
          congr 1
          simp [processIngredient, hr]

theorem foldl_processCookingStep_store (cooking_steps : List GraphNode) :
    ∀ st : GraphIndexingModule,
      (cooking_steps.foldl processCookingStep st).entity_kv_store =
        insertAll st.entity_kv_store (cooking_steps.map cookingStepRecord) := by
  induction cooking_steps with
  | nil => intro st; rfl
  | cons r rs ih =>
      intro st
      rw [List.foldl_cons, ih, List.map_cons, insertAll_cons]
      rfl

theorem create_entity_store_eq (st : GraphIndexingModule)
    (recipes ingredients cooking_steps : List GraphNode) :
    (create_entity_key_values st recipes ingredients cooking_steps).entity_kv_store =
      insertAll st.entity_kv_store (entityPairs recipes ingredients cooking_steps) := by
  rw [entityPairs, insertAll_append, insertAll_append]
  rw [create_entity_key_values]
  rw [foldl_processCookingStep_store, foldl_processIngredient_store,
    foldl_processRecipe_store]

theorem mem_insertAll {κ V : Type} [DecidableEq κ] {p : κ × V}
    {ps : List (κ × V)} : ∀ {m : List (κ × V)},
    p ∈ insertAll m ps → p ∈ m ∨ p ∈ ps := by
  induction ps with
  | nil => intro m h; left; exact h
  | cons q ps ih =>
      intro m h
      rw [insertAll_cons] at h
      rcases ih h with h | h
      · rcases mem_upsert h with h | h
        · left; exact h
        · right
          rw [h]
          simp
      · right
        exact List.mem_cons_of_mem q h

theorem entityPairs_name_mem_keys (recipes ingredients cooking_steps : List GraphNode) :
    ∀ p ∈ entityPairs recipes ingredients cooking_steps,
      p.2.entity_name ∈ p.2.index_keys := by
  intro p hp
  rw [entityPairs] at hp
  rcases List.mem_append.mp hp with hp | hp
  · rcases List.mem_append.mp hp with hp | hp
    · rcases List.mem_map.mp hp with ⟨r, _, heq⟩
      rw [← heq]
      simp [recipeRecord]
    · rcases List.mem_filterMap.mp hp with ⟨a, _, heq⟩
      cases hap : a.properties with
      | none => simp [ingredientRecord, hap] at heq
      | some props =>
          simp only [ingredientRecord, hap] at heq
          rw [← Option.some.inj heq]
          simp
  · rcases List.mem_map.mp hp with ⟨r, _, heq⟩
    rw [← heq]
    simp [cookingStepRecord]

theorem processRelation_skip (st : GraphIndexingModule)
    (p : Nat × String × String × String)
    (h : alookup st.entity_kv_store p.2.1 = none ∨
         alookup st.entity_kv_store p.2.2.1 = none) :
    processRelation st p = (st, none) := by
  rcases h with h | h
  · simp [processRelation, h]
  · cases hl : alookup st.entity_kv_store p.2.1 with
    | none => simp [processRelation, hl]
    | some se => simp [processRelation, hl, h]

theorem processRelation_raise (st : GraphIndexingModule)
    (p : Nat × String × String × String) (se te : EntityKeyValue)
    (h1 : alookup st.entity_kv_store p.2.1 = some se)
    (h2 : alookup st.entity_kv_store p.2.2.1 = some te) :
    processRelation st p =
      (st, some "TypeError: hasattr expected 2 arguments, got 3") := by
  simp [processRelation, h1, h2, generate_relation_index_keys]

theorem processRelation_state (st : GraphIndexingModule)
    (p : Nat × String × String × String) : (processRelation st p).1 = st := by
  cases h1 : alookup st.entity_kv_store p.2.1 with
  | none => rw [processRelation_skip st p (Or.inl h1)]
  | some se =>
      cases h2 : alookup st.entity_kv_store p.2.2.1 with
      | none => rw [processRelation_skip st p (Or.inr h2)]
      | some te => rw [processRelation_raise st p se te h1 h2]

theorem relationLoop_state (l : List (Nat × String × String × String)) :
    ∀ st, (relationLoop st l).1 = st := by
  induction l with
  | nil => intro st; rfl
  | cons p rest ih =>
      intro st
      have hst : (processRelation st p).1 = st := processRelation_state st p
      rcases hpr : processRelation st p with ⟨st', err⟩
      rw [hpr] at hst
      cases err with
      | none =>
          simp only [relationLoop, hpr]
          rw [ih st']
          exact hst
      | some e =>
          simp only [relationLoop, hpr]
          exact hst

theorem relationLoop_error_mem (l : List (Nat × String × String × String)) :
    ∀ st, (relationLoop st l).2 ≠ none →
      ∃ q ∈ l, (alookup st.entity_kv_store q.2.1).isSome ∧
               (alookup st.entity_kv_store q.2.2.1).isSome := by
  induction l with
  | nil => intro st h; exact absurd rfl h
  | cons p rest ih =>
      intro st h
      cases h1 : alookup st.entity_kv_store p.2.1 with
      | none =>
          have hskip := processRelation_skip st p (Or.inl h1)
          simp only [relationLoop, hskip] at h
          rcases ih st h with ⟨q, hq, hq2⟩
          exact ⟨q, List.mem_cons_of_mem p hq, hq2⟩
      | some se =>
          cases h2 : alookup st.entity_kv_store p.2.2.1 with
          | none =>
              have hskip := processRelation_skip st p (Or.inr h2)
              simp only [relationLoop, hskip] at h
              rcases ih st h with ⟨q, hq, hq2⟩
              exact ⟨q, List.mem_cons_of_mem p hq, hq2⟩
          | some te =>
              exact ⟨p, by simp, by simp [h1], by simp [h2]⟩

theorem relationLoop_all_skip (l : List (Nat × String × String × String)) :
    ∀ st, (∀ q ∈ l, alookup st.entity_kv_store q.2.2.1 = none) →
      relationLoop st l = (st, none) := by
  induction l with
  | nil => intro st _; rfl
  | cons p rest ih =>
      intro st h
      have hskip := processRelation_skip st p (Or.inr (h p (by simp)))
      simp only [relationLoop, hskip]
      exact ih st (fun q hq => h q (List.mem_cons_of_mem p hq))

theorem snd_mem_of_mem_enumFrom {α : Type} :
    ∀ (l : List α) (n : Nat) (q : Nat × α), q ∈ l.enumFrom n → q.2 ∈ l := by
  intro l
  induction l with
  | nil => intro n q h; simp [List.enumFrom] at h
  | cons a l ih =>
      intro n q h
      rw [List.enumFrom] at h
      rcases List.mem_cons.mp h with h | h
      · rw [h]
        simp
      · exact List.mem_cons_of_mem a (ih (n + 1) q h)

/-! ## Lemmas about collapseBy -/

theorem collapseStep_inv {κ α : Type} [DecidableEq κ] (key : α → κ)
    (merge : α → α → α) (hmerge : ∀ a b, key (merge a b) = key b)
    (acc : List (κ × α)) (a : α)
    (hcons : ∀ p ∈ acc, key p.2 = p.1)
    (hnd : (acc.map Prod.fst).Nodup) :
    (∀ p ∈ collapseStep key merge acc a, key p.2 = p.1) ∧
      ((collapseStep key merge acc a).map Prod.fst).Nodup := by
  cases hl : alookup acc (key a) with
  | some old =>
      constructor
      · intro p hp
        rcases mem_upsert (by simpa [collapseStep, hl] using hp) with hp' | hp'
        · exact hcons p hp'
        · rw [hp']
          exact hmerge old a
      · have h2 := nodup_keys_upsert (key a) (merge old a) hnd
        simpa [collapseStep, hl] using h2
  | none =>
      have hnotmem : key a ∉ acc.map Prod.fst :=
        (alookup_eq_none_iff acc (key a)).mp hl
      constructor
      · intro p hp
        have hp2 : p ∈ acc ∨ p = (key a, a) := by
          simpa [collapseStep, hl] using hp
        rcases hp2 with hp' | hp'
        · exact hcons p hp'
        · rw [hp']
      · simp [collapseStep, hl, List.nodup_append, hnd, hnotmem]

theorem collapseFold_inv {κ α : Type} [DecidableEq κ] (key : α → κ)
    (merge : α → α → α) (hmerge : ∀ a b, key (merge a b) = key b)
    (xs : List α) : ∀ acc : List (κ × α),
    (∀ p ∈ acc, key p.2 = p.1) → (acc.map Prod.fst).Nodup →
    (∀ p ∈ xs.foldl (collapseStep key merge) acc, key p.2 = p.1) ∧
      ((xs.foldl (collapseStep key merge) acc).map Prod.fst).Nodup := by
  induction xs with
  | nil => intro acc h1 h2; exact ⟨h1, h2⟩
  | cons a xs ih =>
      intro acc h1 h2
      rw [List.foldl_cons]
      obtain ⟨h1', h2'⟩ := collapseStep_inv key merge hmerge acc a h1 h2
      exact ih (collapseStep key merge acc a) h1' h2'

theorem collapse_fixed {κ α : Type} [DecidableEq κ] (key : α → κ)
    (merge : α → α → α) (xs : List α) : ∀ acc : List (κ × α),
    ((acc.map Prod.fst ++ xs.map key).Nodup) →
    xs.foldl (collapseStep key merge) acc =
      acc ++ xs.map (fun a => (key a, a)) := by
  induction xs with
  | nil => intro acc _; simp
  | cons a xs ih =>
      intro acc h
      have hka : key a ∉ acc.map Prod.fst := by
        rw [List.nodup_append] at h
        intro hmem
        exact h.2.2 hmem (by simp)
      have hl : alookup acc (key a) = none :=
        (alookup_eq_none_iff acc (key a)).mpr hka
      rw [List.foldl_cons]
      have hstep : collapseStep key merge acc a = acc ++ [(key a, a)] := by
        simp [collapseStep, hl]
      rw [hstep]
      have hnd2 : (((acc ++ [(key a, a)]).map Prod.fst) ++ xs.map key).Nodup := by
        rw [List.map_append, List.append_assoc]
        simpa using h
      rw [ih (acc ++ [(key a, a)]) hnd2]
      simp

theorem collapseBy_idem {κ α : Type} [DecidableEq κ] (key : α → κ)
    (merge : α → α → α) (hmerge : ∀ a b, key (merge a b) = key b)
    (xs : List α) :
    collapseBy key merge (collapseBy key merge xs) = collapseBy key merge xs := by
  obtain ⟨hcons, hnd⟩ :=
    collapseFold_inv key merge hmerge xs [] (by simp) (by simp)
  have hkeys : (collapseBy key merge xs).map key =
      (xs.foldl (collapseStep key merge) []).map Prod.fst := by
    show ((xs.foldl (collapseStep key merge) []).map Prod.snd).map key = _
    rw [List.map_map]
    exact map_congr_mem (fun p hp => hcons p hp)
  have hnd2 : ((collapseBy key merge xs).map key).Nodup := by
    rw [hkeys]
    exact hnd
  show ((collapseBy key merge xs).foldl (collapseStep key merge) []).map
      Prod.snd = collapseBy key merge xs
  rw [collapse_fixed key merge (collapseBy key merge xs) [] (by simpa using hnd2)]
  rw [List.nil_append, List.map_map]
  exact map_self_of_mem (fun a _ => rfl)

/-! ## Claim theorems -/

/-- C2: with the retry bound of 3 and failures that abort the streaming
request (no partial fragments), the caller observes exactly: the attempt-3
content when attempts 1,2 fail and 3 succeeds, with backoffs 1*2 and 2*2
seconds before the two retries; the fallback content when all 3 attempts fail
and the non-streaming fallback succeeds; and the single apologetic error
string when the fallback fails too — in every case the generator returns
normally, no exception reaching the caller. -/

theorem stream_retry_fallback_behavior
    (att : Nat → List String × Option String)
    (fallback : Except String String) (e1 e2 : String)
    (h0 : att 0 = ([], some e1)) (h1 : att 1 = ([], some e2)) :
    (∀ cs : List String, att 2 = (cs, none) →
      generate_adaptive_answer_stream att fallback 3 =
        { yielded := cs, waits := [1 * 2, 2 * 2], usedFallback := false }) ∧
    (∀ e3 s, att 2 = ([], some e3) → fallback = Except.ok s →
      generate_adaptive_answer_stream att fallback 3 =
        { yielded := [s], waits := [1 * 2, 2 * 2], usedFallback := true }) ∧
    (∀ e3 msg, att 2 = ([], some e3) → fallback = Except.error msg →
      generate_adaptive_answer_stream att fallback 3 =
        { yielded := [streamErrorMessage e3], waits := [1 * 2, 2 * 2],
          usedFallback := true }) := by
  refine ⟨?_, ?_, ?_⟩
  · intro cs hc
    show streamLoop att fallback 3 (List.range 3) = _
    rw [show List.range 3 = [0, 1, 2] from rfl]
    simp [streamLoop, h0, h1, hc]
  · intro e3 s hc hf
    show streamLoop att fallback 3 (List.range 3) = _
    rw [show List.range 3 = [0, 1, 2] from rfl]
    simp [streamLoop, h0, h1, hc, hf]
  · intro e3 msg hc hf
    show streamLoop att fallback 3 (List.range 3) = _
    rw [show List.range 3 = [0, 1, 2] from rfl]
    simp [streamLoop, h0, h1, hc, hf]

/-- Witness for C2 at a concrete attempt behaviour. -/

theorem stream_retry_fallback_behavior_witness :
    cAtt 0 = ([], some "e1") ∧ cAtt 1 = ([], some "e2") ∧
    generate_adaptive_answer_stream cAtt (Except.error "down") 3 =
      { yielded := ["attempt3"], waits := [1 * 2, 2 * 2],
        usedFallback := false } :=
  ⟨rfl, rfl,
   (stream_retry_fallback_behavior cAtt (Except.error "down") "e1" "e2" rfl
      rfl).1 ["attempt3"] rfl⟩

/-- C3: `create_relation_key_value` never stores a relation record whose
endpoints do not both resolve in `entity_kv_store` — every record in the
output store was either already present or has both endpoints indexed — and a
skipped relation never aborts the loop: if the loop raises at all, the raising
relation is one whose BOTH endpoints resolved. -/

theorem create_relation_key_value_endpoint_invariant
    (st : GraphIndexingModule)
    (relationships : List (String × String × String)) :
    (∀ rid rkv,
      (rid, rkv) ∈
          (create_relation_key_value st relationships).1.relation_kv_store →
        (rid, rkv) ∈ st.relation_kv_store ∨
          ((alookup st.entity_kv_store rkv.source_entity).isSome ∧
           (alookup st.entity_kv_store rkv.target_entity).isSome)) ∧
    ((create_relation_key_value st relationships).2 ≠ none →
      ∃ r ∈ relationships,
        (alookup st.entity_kv_store r.1).isSome ∧
        (alookup st.entity_kv_store r.2.1).isSome) := by
  constructor
  · intro rid rkv h
    left
    have hstate : (create_relation_key_value st relationships).1 = st :=
      relationLoop_state relationships.enum st
    rw [hstate] at h
    exact h
  · intro h
    rcases relationLoop_error_mem relationships.enum st h with ⟨q, hq, hq2⟩
    exact ⟨q.2, snd_mem_of_mem_enumFrom relationships 0 q hq, hq2⟩

/-- Witness for C3 on a state holding one prior relation and one accepted
relation tuple. -/

theorem create_relation_key_value_endpoint_invariant_witness :
    (("rel_prior", rkvPrior) ∈
        (create_relation_key_value stWithEntities
          [("A", "B", "REQUIRES")]).1.relation_kv_store ∧
      (("rel_prior", rkvPrior) ∈ stWithEntities.relation_kv_store ∨
        ((alookup stWithEntities.entity_kv_store rkvPrior.source_entity).isSome ∧
         (alookup stWithEntities.entity_kv_store rkvPrior.target_entity).isSome))) ∧
    ((create_relation_key_value stWithEntities [("A", "B", "REQUIRES")]).2 ≠
        none ∧
      ∃ r ∈ [("A", "B", "REQUIRES")],
        (alookup stWithEntities.entity_kv_store r.1).isSome ∧
        (alookup stWithEntities.entity_kv_store r.2.1).isSome) :=
  ⟨⟨by decide,
    (create_relation_key_value_endpoint_invariant stWithEntities
        [("A", "B", "REQUIRES")]).1 "rel_prior" rkvPrior (by decide)⟩,
   ⟨by decide,
    (create_relation_key_value_endpoint_invariant stWithEntities
        [("A", "B", "REQUIRES")]).2 (by decide)⟩⟩

/-- C4: every EntityRecord produced by `create_entity_key_values` (over any
recipes, ingredients and cooking steps) has its `entity_name` among its
`index_keys`; records that were already in the store before the call are
untouched and exempt. -/

theorem create_entity_name_mem_index_keys (st : GraphIndexingModule)
    (recipes ingredients cooking_steps : List GraphNode)
    (id : String) (kv : EntityKeyValue)
    (h : (id, kv) ∈ (create_entity_key_values st recipes ingredients
        cooking_steps).entity_kv_store) :
    (id, kv) ∈ st.entity_kv_store ∨ kv.entity_name ∈ kv.index_keys := by
  rw [create_entity_store_eq] at h
  rcases mem_insertAll h with h | h
  · left
    exact h
  · right
    exact entityPairs_name_mem_keys recipes ingredients cooking_steps (id, kv) h

/-- Witness for C4 on a concrete store built from one recipe node. -/

theorem create_entity_name_mem_index_keys_witness :
    (nodeR.node_id, (recipeRecord nodeR).2) ∈
        (create_entity_key_values GraphIndexingModule.fresh [nodeR] [] []).entity_kv_store ∧
    ((nodeR.node_id, (recipeRecord nodeR).2) ∈
        GraphIndexingModule.fresh.entity_kv_store ∨
      (recipeRecord nodeR).2.entity_name ∈ (recipeRecord nodeR).2.index_keys) :=
  ⟨by decide,
   create_entity_name_mem_index_keys GraphIndexingModule.fresh [nodeR] [] []
     nodeR.node_id (recipeRecord nodeR).2 (by decide)⟩

/-- C5: the (spec-modelled) deduplication is idempotent — applying it twice
yields the same module state as applying it once — and afterwards both key
indexes are exactly the rebuild derived from the collapsed record stores. -/

theorem deduplicate_idempotent_and_rebuilds_key_index
    (st : GraphIndexingModule) :
    deduplicate_entities_and_relations (deduplicate_entities_and_relations st) =
      deduplicate_entities_and_relations st ∧
    (deduplicate_entities_and_relations st).key_to_entities =
      rebuildKeyToEntities
        (deduplicate_entities_and_relations st).entity_kv_store ∧
    (deduplicate_entities_and_relations st).key_to_relations =
      rebuildKeyToRelations
        (deduplicate_entities_and_relations st).relation_kv_store := by
  refine ⟨?_, rfl, rfl⟩
  have he := collapseBy_idem entGroupKey mergeEntityRecord
    (fun a b => rfl) st.entity_kv_store
  have hr := collapseBy_idem relGroupKey mergeRelationRecord
    (fun a b => rfl) st.relation_kv_store
  simp [deduplicate_entities_and_relations, he, hr]

/-- C6 counterexample: re-running `create_entity_key_values` with the same
single recipe does NOT leave the module in the same state — the
`key_to_entities` list for the recipe name receives the entity id a second
time. -/

theorem create_entity_key_values_rerun_changes_state :
    create_entity_key_values
        (create_entity_key_values GraphIndexingModule.fresh [nodeR] [] [])
        [nodeR] [] [] ≠
      create_entity_key_values GraphIndexingModule.fresh [nodeR] [] [] := by
  decide

/-- C6 amended: re-running `create_entity_key_values` with the same ids and
node data reproduces the ENTITY RECORD STORE byte-identically (records are
keyed by `entity_id`), but the derived key-to-entity index is not restored:
each run appends the ids to the per-name lists again. -/

theorem create_entity_key_values_store_idempotent (st : GraphIndexingModule)
    (recipes ingredients cooking_steps : List GraphNode)
    (hnd : (st.entity_kv_store.map Prod.fst).Nodup) :
    (create_entity_key_values
        (create_entity_key_values st recipes ingredients cooking_steps)
        recipes ingredients cooking_steps).entity_kv_store =
      (create_entity_key_values st recipes ingredients
        cooking_steps).entity_kv_store := by
  simp only [create_entity_store_eq]
  exact insertAll_idem st.entity_kv_store
    (entityPairs recipes ingredients cooking_steps) hnd

/-- Witness for the amended C6 on a fresh module and one recipe. -/

theorem create_entity_key_values_store_idempotent_witness :
    (GraphIndexingModule.fresh.entity_kv_store.map Prod.fst).Nodup ∧
    (create_entity_key_values
        (create_entity_key_values GraphIndexingModule.fresh [nodeR] [] [])
        [nodeR] [] []).entity_kv_store =
      (create_entity_key_values GraphIndexingModule.fresh
        [nodeR] [] []).entity_kv_store :=
  ⟨by decide,
   create_entity_key_values_store_idempotent GraphIndexingModule.fresh
     [nodeR] [] [] (by decide)⟩

/-- C7 counterexample: `GraphRAGRetrievalModule.initialize` with an
unreachable graph store does NOT raise — the connection error is caught,
logged, and the method returns normally with the state unchanged. -/

theorem rag_init_swallows_connection_failure :
    ragModuleInit GraphRAGRetrievalModule.fresh (Except.error "Neo4j连接失败")
        (Except.error "no connection") =
      Except.ok GraphRAGRetrievalModule.fresh := rfl

/-- C7 amended: a missing LLM API key makes `LLMModule.__init__` raise and
propagate, and `GraphDataModule._connect` re-raises any connection error; but
`GraphRAGRetrievalModule.initialize` swallows a connection failure (logs and
returns normally) instead of propagating it. -/

theorem init_error_propagation_amended (config : LLMConfig) (e : String)
    (st : GraphRAGRetrievalModule)
    (q : Except String (List (String × String) × List (String × Nat)))
    (hkey : pyTruthyOptStr config.api_key = false) :
    llm_module_init config = Except.error "ValueError: LLM API KEY不能为空" ∧
    graph_data_module_connect (Except.error e) = Except.error e ∧
    ragModuleInit st (Except.error e) q = Except.ok st := by
  refine ⟨?_, rfl, rfl⟩
  simp [llm_module_init, hkey]

/-- Witness for the amended C7 at a concrete configuration. -/

theorem init_error_propagation_amended_witness :
    pyTruthyOptStr (LLMConfig.mk "zai-org/GLM-4.6" none none).api_key = false ∧
    (llm_module_init (LLMConfig.mk "zai-org/GLM-4.6" none none) =
        Except.error "ValueError: LLM API KEY不能为空" ∧
      graph_data_module_connect (Except.error "connection refused") =
        Except.error "connection refused" ∧
      ragModuleInit GraphRAGRetrievalModule.fresh
          (Except.error "connection refused") (Except.error "q") =
        Except.ok GraphRAGRetrievalModule.fresh) :=
  ⟨rfl,
   init_error_propagation_amended (LLMConfig.mk "zai-org/GLM-4.6" none none)
     "connection refused" GraphRAGRetrievalModule.fresh (Except.error "q") rfl⟩

/-- C8: the producer `_extract_relationships_from_graph` builds tuples
`(source_id, relation_type, target_id)` while `create_relation_key_value`
unpacks `(source_id, target_id, relation_type)`, so the middle element — a
relation type — is looked up as the target entity; when no relation-type
string equals an indexed entity id, every relation is skipped and nothing is
stored (the state is returned unchanged and no exception is raised). -/

theorem swapped_tuple_order_drops_all_relations (st : GraphIndexingModule)
    (rows : List RelationRow)
    (h : ∀ r ∈ rows, alookup st.entity_kv_store r.relation_type = none) :
    create_relation_key_value st (extract_relationships_from_graph rows) =
      (st, none) := by
  show relationLoop st (extract_relationships_from_graph rows).enum = (st, none)
  apply relationLoop_all_skip
  intro q hq
  have hmem : q.2 ∈ extract_relationships_from_graph rows :=
    snd_mem_of_mem_enumFrom _ 0 q hq
  rcases List.mem_map.mp hmem with ⟨r, hr, heq⟩
  rw [← heq]
  exact h r hr

/-- Witness for C8: a row whose endpoints are both indexed still produces no
stored relation, because its middle element "REQUIRES" is not an entity id. -/

theorem swapped_tuple_order_drops_all_relations_witness :
    (∀ r ∈ [rowAB],
      alookup stWithEntities.entity_kv_store r.relation_type = none) ∧
    create_relation_key_value stWithEntities
        (extract_relationships_from_graph [rowAB]) =
      (stWithEntities, none) :=
  ⟨by decide,
   swapped_tuple_order_drops_all_relations stWithEntities [rowAB] (by decide)⟩

/-- C9: in `create_entity_key_values`, an ingredient node without a
`properties` attribute produces no record at all (module state unchanged),
while a recipe or cooking-step node without one is still stored, with a
name-only content block. -/

theorem entity_indexing_missing_properties_behavior (st : GraphIndexingModule)
    (node : GraphNode) (h : node.properties = none) :
    create_entity_key_values st [] [node] [] = st ∧
    (create_entity_key_values st [node] [] []).entity_kv_store =
      upsert st.entity_kv_store node.node_id
        { entity_name := pyOrStr node.name ("菜谱_" ++ node.node_id),
          index_keys := [pyOrStr node.name ("菜谱_" ++ node.node_id)],
          value_content := "菜品名称：" ++ pyOrStr node.name ("菜谱_" ++ node.node_id),
          entity_type := "Recipe",
          metadata := { node_id := node.node_id, properties := [] } } ∧
    (create_entity_key_values st [] [] [node]).entity_kv_store =
      upsert st.entity_kv_store node.node_id
        { entity_name := pyOrStr node.name ("步骤_" ++ node.node_id),
          index_keys := [pyOrStr node.name ("步骤_" ++ node.node_id)],
          value_content := "步骤名称：" ++ pyOrStr node.name ("步骤_" ++ node.node_id),
          entity_type := "CookingStep",
          metadata := { node_id := node.node_id, properties := [] } } := by
  refine ⟨?_, ?_, ?_⟩
  · simp [create_entity_key_values, processIngredient, ingredientRecord, h]
  · simp [create_entity_key_values, processRecipe, recipeRecord, h, joinLines]
  · simp [create_entity_key_values, processCookingStep, cookingStepRecord, h,
      joinLines]

/-- Witness for C9: the propertyless ingredient node leaves a fresh module
unchanged. -/

theorem entity_indexing_missing_properties_behavior_witness :
    nodeI.properties = none ∧
    create_entity_key_values GraphIndexingModule.fresh [] [nodeI] [] =
      GraphIndexingModule.fresh :=
  ⟨rfl,
   (entity_indexing_missing_properties_behavior GraphIndexingModule.fresh
      nodeI rfl).1⟩

/-- C10: the guard of `chunk_documents` tests the imported module name
`documents` (always truthy), not `self.documents`, so with an empty document
list the call returns an empty chunk list instead of raising the intended
"build documents first" ValueError. -/

theorem chunk_documents_empty_returns_empty_list
    (chunk_size chunk_overlap : Nat) :
    chunk_documents [] chunk_size chunk_overlap = Except.ok [] := rfl
